import Mathlib

/-!
Shallow embedding of `src/main.rs` of polybar-now-playing-rust: the
width-aware clamp/scroll text engine, the prefix/suffix formatter, the
player registry refresh and one iteration of the polling loop, together
with proofs about them.  Rust panics and propagated `?` errors are made
explicit with `Option` and `Except`.
-/

set_option autoImplicit false

namespace PolybarNowPlaying

/-- Width of one character as reported by the unicode-width crate
(`UnicodeWidthChar::width`): `none` for control characters, `some 0` for
zero-width combining and format characters, `some 2` for East-Asian wide and
fullwidth ranges, `some 1` otherwise.  Modelled over the Unicode ranges
relevant to this development. -/
def charWidth (c : Char) : Option Nat :=
  let n := c.toNat
  if n < 0x20 ∨ (0x7F ≤ n ∧ n < 0xA0) then none
  else if (0x300 ≤ n ∧ n ≤ 0x36F) ∨ (0x200B ≤ n ∧ n ≤ 0x200F) ∨
          (0xFE00 ≤ n ∧ n ≤ 0xFE0F) then some 0
  else if (0x1100 ≤ n ∧ n ≤ 0x115F) ∨ (0x2E80 ≤ n ∧ n ≤ 0x303E) ∨
          (0x3041 ≤ n ∧ n ≤ 0x33FF) ∨ (0x3400 ≤ n ∧ n ≤ 0x4DBF) ∨
          (0x4E00 ≤ n ∧ n ≤ 0x9FFF) ∨ (0xA000 ≤ n ∧ n ≤ 0xA4CF) ∨
          (0xAC00 ≤ n ∧ n ≤ 0xD7A3) ∨ (0xF900 ≤ n ∧ n ≤ 0xFAFF) ∨
          (0xFE30 ≤ n ∧ n ≤ 0xFE4F) ∨ (0xFF00 ≤ n ∧ n ≤ 0xFF60) ∨
          (0xFFE0 ≤ n ∧ n ≤ 0xFFE6) ∨ (0x20000 ≤ n ∧ n ≤ 0x2FFFD) ∨
          (0x30000 ≤ n ∧ n ≤ 0x3FFFD) then some 2
  else some 1

/-- Sum of `charWidth` over a character list with `none` counted as 0,
as `UnicodeWidthStr::width` does. -/
def widthSum : List Char → Nat
  | [] => 0
  | c :: rest => (charWidth c).getD 0 + widthSum rest

/-- The source's `visual_length` method: `text.width()`. -/
def visual_length (text : String) : Nat :=
  widthSum text.data

/-- Per-character cell count used by the accumulation loop of
`make_visual_length`: `if ch.width() == Some(2) { 2 } else { 1 }`. -/
def charCellWidth (c : Char) : Nat :=
  if charWidth c = some 2 then 2 else 1

/-- Sum of `charCellWidth` over a character list. -/
def countedWidth : List Char → Nat
  | [] => 0
  | c :: rest => charCellWidth c + countedWidth rest

/-- The `for ch in text.chars()` loop of `make_visual_length`: starting from
accumulated width `acc`, greedily accept characters while the accumulated
width stays at most `n`, stopping at the first character that would
overshoot.  Returns the final accumulated width and the accepted prefix. -/
def clampLoop (n : Nat) : List Char → Nat → Nat × List Char
  | [], acc => (acc, [])
  | c :: rest, acc =>
    if acc + charCellWidth c ≤ n then
      ((clampLoop n rest (acc + charCellWidth c)).1,
       c :: (clampLoop n rest (acc + charCellWidth c)).2)
    else (acc, [])

/-- The source's `make_visual_length`: run the accumulation loop, then
either replace the last accepted character by a space (when the accumulated
width is `n + 1`) or right-pad with spaces up to `n`. -/
def make_visual_length (text : String) (visual_desired_length : Nat) : String :=
  let p := clampLoop visual_desired_length text.data 0
  if p.1 = visual_desired_length + 1 then String.mk (p.2.dropLast ++ [' '])
  else if p.1 < visual_desired_length then
    String.mk (p.2 ++ List.replicate (visual_desired_length - p.1) ' ')
  else String.mk p.2

/-- `MESSAGE_DISPLAY_LEN` of the source. -/
def MESSAGE_DISPLAY_LEN : Nat := 20

/-- `FONT_INDEX` of the source. -/
def FONT_INDEX : Nat := 1

/-- `CONTROL_CHARS` of the source: previous, play, pause, next glyphs. -/
def CONTROL_CHARS : List String := ["", "", "", ""]

/-- The `DISPLAY_PLAYER_PREFIX` table of the source: ordered
(substring-pattern, icon) pairs with a trailing default entry. -/
def DISPLAY_PLAYER_PFX : List (String × String) :=
  [("spotify", ""), ("firefox", ""), ("default", "")]

/-- `METADATA_FIELDS` of the source. -/
def METADATA_FIELDS : List String := ["xesam:title", "xesam:artist"]

/-- `METADATA_SEPARATOR` of the source. -/
def METADATA_SEPARATOR : Char := '-'

/-- `HIDE_OUTPUT` of the source. -/
def HIDE_OUTPUT : Bool := false

/-- The mutable display fields of the `PolybarNowPlaying` struct:
`display_prefix` (here `display_pfx`), `display_suffix`, the scroll buffer
`display_text`, and `status_paused`. -/
structure DisplayState where
  display_pfx : String
  display_suffix : String
  display_text : String
  status_paused : Bool
deriving DecidableEq, Repr

/-- Rust `str::contains`: substring test. -/
def strContains (s pat : String) : Bool :=
  s.data.tails.any fun t => pat.data.isPrefixOf t

/-- Rust `str::to_lowercase`, character-wise. -/
def toLowerStr (s : String) : String :=
  String.mk (s.data.map Char.toLower)

/-- Rust `str::is_empty`. -/
def strIsEmpty (s : String) : Bool :=
  s.data.isEmpty

/-- Rust `str::split(':')` on a character list. -/
def splitOnColon : List Char → List (List Char)
  | [] => [[]]
  | c :: rest =>
    let r := splitOnColon rest
    if c = ':' then [] :: r
    else
      match r with
      | [] => [[c]]
      | cur :: others => (c :: cur) :: others

/-- Rust `[String]::join`. -/
def joinWith (sep : String) (parts : List String) : String :=
  String.mk (List.intercalate sep.data (parts.map String.data))

/-- The `player_option` local of `update_prefix_suffix`. -/
def player_option (player_name : String) : String :=
  if strIsEmpty player_name then "" else "-p " ++ player_name

/-- The `prev_button` local of `update_prefix_suffix`. -/
def prev_button (player_name : String) : String :=
  "%\x7bA:playerctl " ++ player_option player_name ++ " previous :\x7d" ++
    CONTROL_CHARS.getD 0 "" ++ "%\x7bA\x7d"

/-- The `play_button` local of `update_prefix_suffix`. -/
def play_button (player_name : String) : String :=
  "%\x7bA:playerctl " ++ player_option player_name ++ " play :\x7d" ++
    CONTROL_CHARS.getD 1 "" ++ "%\x7bA\x7d"

/-- The `pause_button` local of `update_prefix_suffix`. -/
def pause_button (player_name : String) : String :=
  "%\x7bA:playerctl " ++ player_option player_name ++ " pause :\x7d" ++
    CONTROL_CHARS.getD 2 "" ++ "%\x7bA\x7d"

/-- The `next_button` local of `update_prefix_suffix`. -/
def next_button (player_name : String) : String :=
  "%\x7bA:playerctl " ++ player_option player_name ++ " next :\x7d" ++
    CONTROL_CHARS.getD 3 "" ++ "%\x7bA\x7d"

/-- The `for (key, value) in &DISPLAY_PLAYER_PREFIX` loop: first pattern
contained in the lowercased player name wins; when none matches the
previous value is kept. -/
def iconLoop : List (String × String) → String → String → String
  | [], _, cur => cur
  | (key, value) :: rest, lowerName, cur =>
    if strContains lowerName key then value else iconLoop rest lowerName cur

/-- The source's `update_prefix_suffix`: rebuild the suffix from the four
control segments (pause glyph when the status is exactly "Playing", play
glyph otherwise), set `status_paused` accordingly, then run the icon table
over the lowercased player name, falling back to the table's last entry
when the resulting icon is empty. -/
def update_prefix_suffix (st : DisplayState) (player_name status : String) :
    DisplayState :=
  let suffix0 := "| " ++ prev_button player_name
  let p :=
    if status = "Playing" then (suffix0 ++ " " ++ pause_button player_name, false)
    else (suffix0 ++ " " ++ play_button player_name, true)
  let suffix := p.1 ++ " " ++ next_button player_name
  let pfx0 := iconLoop DISPLAY_PLAYER_PFX (toLowerStr player_name) st.display_pfx
  let pfx := if strIsEmpty pfx0 then (DISPLAY_PLAYER_PFX.getLastD ("", "")).2 else pfx0
  { st with display_pfx := pfx, display_suffix := suffix, status_paused := p.2 }

/-- One scroll tick (the source's `scroll`).  When not paused and the buffer
is wider than `MESSAGE_DISPLAY_LEN`, the Rust body rotates via the byte
slices `display_text[1..]` and `display_text[0..1]`; both panic when byte
offset 1 is not a character boundary, i.e. when the first character
occupies more than one UTF-8 byte.  The panic is modelled as `none`. -/
def scroll (st : DisplayState) : Option DisplayState :=
  if st.status_paused then some st
  else if MESSAGE_DISPLAY_LEN < visual_length st.display_text then
    match st.display_text.data with
    | [] => none
    | c :: rest =>
      if c.utf8Size = 1 then
        some { st with display_text := String.mk (rest ++ [c]) }
      else none
  else if visual_length st.display_text < MESSAGE_DISPLAY_LEN then
    let pad := String.mk (List.replicate (MESSAGE_DISPLAY_LEN - visual_length st.display_text) ' ')
    some { st with display_text := st.display_text ++ pad }
  else some st

/-- Error raised by the bus transport (`dbus` call failures propagated with
the `?` operator in the source). -/
inductive TransportError where
  | err : String → TransportError
deriving DecidableEq, Repr

/-- The registry part of the `PolybarNowPlaying` struct: the player name
sequence and the `current_player` index. -/
structure RegistryState where
  players : List String
  current : Nat
deriving DecidableEq, Repr

/-- The source's `get_players`: keep the bus names starting with
"org.mpris.MediaPlayer2.". -/
def get_players (names : List String) : List String :=
  names.filter fun n => "org.mpris.MediaPlayer2.".data.isPrefixOf n.data

/-- The source's `update_players`: refresh the player list from the bus
enumeration (an error propagates), then reset `current_player` to 0 when it
is out of range for the new list. -/
def update_players (reg : RegistryState)
    (fetchedNames : Except TransportError (List String)) :
    Except TransportError RegistryState :=
  match fetchedNames with
  | .error e => .error e
  | .ok names =>
    let ps := get_players names
    .ok { players := ps,
          current := if ps.length ≤ reg.current then 0 else reg.current }

/-- Metadata lookup of `update_message`: the stored value when the field is
present, otherwise "No " followed by the part of the field name after the
colon. -/
def metadataValue (metadata : List (String × String)) (field : String) : String :=
  match List.lookup field metadata with
  | some r => r
  | none => "No " ++ String.mk ((splitOnColon field.data).getLastD [])

/-- Lines 126-155 of `update_message`: the display-state computation before
the scroll tick.  With no players, store "No player available" in the
suffix and then call `update_prefix_suffix "" ""`; otherwise fetch status
and metadata (each fetch error propagates), join the metadata fields, and
either store the clamped wrapped metadata in the suffix (wide case) or
clear the suffix (narrow case), in both cases after `update_prefix_suffix`
has run. -/
def updateMessageState (st : DisplayState) (players : List String) (current : Nat)
    (fetchedStatus : Except TransportError String)
    (fetchedMetadata : Except TransportError (List (String × String))) :
    Except TransportError DisplayState :=
  if players.isEmpty then
    let st1 := { st with display_pfx := "", display_suffix := "No player available" }
    .ok (update_prefix_suffix st1 "" "")
  else
    match fetchedStatus with
    | .error e => .error e
    | .ok status =>
      match fetchedMetadata with
      | .error e => .error e
      | .ok metadata =>
        let player_name := players.getD current ""
        let mlist := METADATA_FIELDS.map (metadataValue metadata)
        let metadata_string := joinWith (" " ++ METADATA_SEPARATOR.toString ++ " ") mlist
        if MESSAGE_DISPLAY_LEN < visual_length metadata_string then
          let st1 := update_prefix_suffix st player_name status
          let wrapped := " " ++ METADATA_SEPARATOR.toString ++ " " ++ metadata_string ++ " |"
          .ok { st1 with display_suffix := make_visual_length wrapped MESSAGE_DISPLAY_LEN }
        else
          .ok (update_prefix_suffix { st with display_suffix := "" } player_name status)

/-- The emitted line of `update_message`:
`"{prefix} %{T<font>}{display_text}%{T-}{suffix}"`. -/
def displayLine (st : DisplayState) : String :=
  st.display_pfx ++ " %\x7bT" ++ toString FONT_INDEX ++ "\x7d" ++ st.display_text ++
    "%\x7bT-\x7d" ++ st.display_suffix

/-- The source's `update_message`: the state computation, then (since
`HIDE_OUTPUT` is false) the scroll tick and the printed line.  A fetch
error propagates as `Except.error`; a panic inside `scroll` is `none`. -/
def update_message (st : DisplayState) (players : List String) (current : Nat)
    (fetchedStatus : Except TransportError String)
    (fetchedMetadata : Except TransportError (List (String × String))) :
    Except TransportError (Option (DisplayState × String)) :=
  match updateMessageState st players current fetchedStatus fetchedMetadata with
  | .error e => .error e
  | .ok st1 =>
    match scroll st1 with
    | none => .ok none
    | some st2 => .ok (some (st2, displayLine st2))

/-- One iteration of the source's `run` loop: `update_players()?` then
`update_message()?`.  An `Except.error` result means the `?` operator left
the loop, `run` returned the error and `main` terminated the process. -/
def runTick (reg : RegistryState) (st : DisplayState)
    (fetchedNames : Except TransportError (List String))
    (fetchedStatus : Except TransportError String)
    (fetchedMetadata : Except TransportError (List (String × String))) :
    Except TransportError (RegistryState × Option (DisplayState × String)) :=
  match update_players reg fetchedNames with
  | .error e => .error e
  | .ok reg' =>
    match update_message st reg'.players reg'.current fetchedStatus fetchedMetadata with
    | .error e => .error e
    | .ok r => .ok (reg', r)

/-- The display fields as initialised by `PolybarNowPlaying::new`. -/
def initialState : DisplayState :=
  { display_pfx := "", display_suffix := "", display_text := "", status_paused := false }

/-- An empty registry. -/
def reg0 : RegistryState := { players := [], current := 0 }

/-- The display state produced by `updateMessageState` on an empty player
list, starting from `initialState`. -/
def noPlayerState : DisplayState :=
  { display_pfx := "",
    display_suffix := "| %\x7bA:playerctl  previous :\x7d%\x7bA\x7d %\x7bA:playerctl  play :\x7d%\x7bA\x7d %\x7bA:playerctl  next :\x7d%\x7bA\x7d",
    display_text := "",
    status_paused := true }

/-- The display state produced by `updateMessageState` for a spotify player
playing a track whose joined metadata is wider than the display. -/
def wideMetadataState : DisplayState :=
  { display_pfx := "",
    display_suffix := " - Bohemian Rhapsody",
    display_text := "",
    status_paused := false }

/-- A paused state whose buffer is wider than the display. -/
def pausedWideState : DisplayState :=
  { display_pfx := "", display_suffix := "",
    display_text := "This title is much too long to fit", status_paused := true }

/-- A playing state whose wide buffer starts with the two-byte character à. -/
def playingAccentState : DisplayState :=
  { display_pfx := "", display_suffix := "",
    display_text := "àbcdefghijklmnopqrstu", status_paused := false }

/-- A playing state whose wide buffer starts with a one-byte character. -/
def playingAsciiState : DisplayState :=
  { display_pfx := "", display_suffix := "",
    display_text := "abcdefghijklmnopqrstu", status_paused := false }

/-- A playing state whose wide buffer starts with the three-byte character 日. -/
def playingCjkState : DisplayState :=
  { display_pfx := "", display_suffix := "",
    display_text := "日本語のタイトルですよ長い", status_paused := false }

theorem clampLoop_fst_le (n : Nat) (cs : List Char) (acc : Nat) (h : acc ≤ n) :
    (clampLoop n cs acc).1 ≤ n := by
  induction cs generalizing acc with
  | nil => simpa [clampLoop] using h
  | cons c rest ih =>
    by_cases hc : acc + charCellWidth c ≤ n
    · simp only [clampLoop, if_pos hc]
      exact ih _ hc
    · simpa [clampLoop, hc] using h

theorem clampLoop_fst (n : Nat) (cs : List Char) (acc : Nat) :
    (clampLoop n cs acc).1 = acc + countedWidth (clampLoop n cs acc).2 := by
  induction cs generalizing acc with
  | nil => simp [clampLoop, countedWidth]
  | cons c rest ih =>
    by_cases hc : acc + charCellWidth c ≤ n
    · simp only [clampLoop, if_pos hc, countedWidth]
      rw [ih]
      omega
    · simp [clampLoop, hc, countedWidth]

theorem clampLoop_full (n : Nat) (cs : List Char) (acc : Nat)
    (h : acc + countedWidth cs ≤ n) :
    clampLoop n cs acc = (acc + countedWidth cs, cs) := by
  induction cs generalizing acc with
  | nil => simp [clampLoop, countedWidth]
  | cons c rest ih =>
    have hc : acc + charCellWidth c ≤ n := by
      simp only [countedWidth] at h
      omega
    have hrec : acc + charCellWidth c + countedWidth rest ≤ n := by
      simp only [countedWidth] at h
      omega
    simp only [clampLoop, if_pos hc, countedWidth, ih _ hrec, Prod.mk.injEq]
    exact ⟨by omega, trivial⟩

theorem mem_clampLoop (n : Nat) (cs : List Char) (acc : Nat) :
    ∀ c ∈ (clampLoop n cs acc).2, c ∈ cs := by
  induction cs generalizing acc with
  | nil => simp [clampLoop]
  | cons d rest ih =>
    intro c hc
    by_cases hd : acc + charCellWidth d ≤ n
    · simp only [clampLoop, if_pos hd, List.mem_cons] at hc
      rcases hc with h | h
      · simp [h]
      · exact List.mem_cons_of_mem d (ih _ c h)
    · simp [clampLoop, hd] at hc

theorem countedWidth_append (l1 l2 : List Char) :
    countedWidth (l1 ++ l2) = countedWidth l1 + countedWidth l2 := by
  induction l1 with
  | nil => simp [countedWidth]
  | cons c rest ih =>
    show charCellWidth c + countedWidth (rest ++ l2) =
      charCellWidth c + countedWidth rest + countedWidth l2
    rw [ih]
    omega

theorem charCellWidth_space : charCellWidth ' ' = 1 := by decide

theorem countedWidth_replicate (k : Nat) :
    countedWidth (List.replicate k ' ') = k := by
  induction k with
  | zero => rfl
  | succ m ih =>
    simp only [List.replicate, countedWidth, ih, charCellWidth_space]
    omega

theorem mk_data (l : List Char) : (String.mk l).data = l := rfl

theorem countedWidth_make_visual_length (s : String) (n : Nat) :
    countedWidth (make_visual_length s n).data = n := by
  have hle := clampLoop_fst_le n s.data 0 (Nat.zero_le n)
  have hfst := clampLoop_fst n s.data 0
  simp only [make_visual_length]
  split
  · rename_i h1
    omega
  · rename_i h1
    split
    · rename_i h2
      rw [mk_data, countedWidth_append, countedWidth_replicate]
      omega
    · rename_i h2
      rw [mk_data]
      omega

theorem make_visual_length_self (t : String) (n : Nat)
    (h : countedWidth t.data = n) :
    make_visual_length t n = t := by
  have h2 := clampLoop_full n t.data 0 (by omega)
  rw [Nat.zero_add, h] at h2
  have hne : ¬ (n = n + 1) := by omega
  have hlt : ¬ (n < n) := by omega
  simp only [make_visual_length, h2]
  rw [if_neg hne, if_neg hlt]

theorem widthSum_eq_countedWidth (l : List Char)
    (h : ∀ c ∈ l, charWidth c = some 1 ∨ charWidth c = some 2) :
    widthSum l = countedWidth l := by
  induction l with
  | nil => rfl
  | cons c rest ih =>
    have hc := h c (List.mem_cons_self c rest)
    have hr := ih fun x hx => h x (List.mem_cons_of_mem c hx)
    rcases hc with h1 | h2
    · simp [widthSum, countedWidth, charCellWidth, h1, hr]
    · simp [widthSum, countedWidth, charCellWidth, h2, hr]

theorem mem_make_visual_length (s : String) (n : Nat) :
    ∀ c ∈ (make_visual_length s n).data, c ∈ s.data ∨ c = ' ' := by
  intro c hc
  have hle := clampLoop_fst_le n s.data 0 (Nat.zero_le n)
  simp only [make_visual_length] at hc
  split at hc
  · rename_i h1
    exact absurd h1 (by omega)
  · split at hc
    · rw [mk_data] at hc
      rcases List.mem_append.mp hc with h | h
      · exact Or.inl (mem_clampLoop n s.data 0 c h)
      · exact Or.inr (List.eq_of_mem_replicate h)
    · rw [mk_data] at hc
      exact Or.inl (mem_clampLoop n s.data 0 c hc)

/-- Claim C1: the code terminates on a fetch failure.  With one player on
the bus and `get_status` failing, `update_message` propagates the error
through the `?` operator and the `run` loop body does the same, so the
loop is left and the process exits with the error instead of skipping the
tick and polling again. -/
theorem claim_C1_eval :
    runTick reg0 initialState
      (Except.ok ["org.mpris.MediaPlayer2.spotify"])
      (Except.error (TransportError.err "endpoint unreachable"))
      (Except.ok []) =
    Except.error (TransportError.err "endpoint unreachable") := rfl

/-- Claim C2: the scroll step is a byte rotation, not a character rotation.
On a playing buffer wider than the display whose first character is
multi-byte, the byte slices `display_text[1..]` and `display_text[0..1]`
panic (modelled as `none`) instead of moving the first character to the
end. -/
theorem claim_C2_eval : scroll playingCjkState = none := rfl

/-- Claim C3 counterexample: the combining mark U+0300 has visual width 0
but is counted as one column by the accumulation loop, so the clamped
string misses the target width. -/
theorem claim_C3_cex :
    ¬ (visual_length (make_visual_length "̀" 1) = 1) := by decide

/-- Claim C3 (amended): for every string whose characters all have visual
width 1 or 2 (no zero-width and no control characters) and every target
width, the result of `make_visual_length` has exactly the target visual
width. -/
theorem claim_C3_amended (s : String) (n : Nat)
    (h : ∀ c ∈ s.data, charWidth c = some 1 ∨ charWidth c = some 2) :
    visual_length (make_visual_length s n) = n := by
  have hall : ∀ c ∈ (make_visual_length s n).data,
      charWidth c = some 1 ∨ charWidth c = some 2 := by
    intro c hc
    rcases mem_make_visual_length s n c hc with h1 | h1
    · exact h c h1
    · subst h1
      exact Or.inl (by decide)
  calc visual_length (make_visual_length s n)
      = countedWidth (make_visual_length s n).data :=
        widthSum_eq_countedWidth _ hall
    _ = n := countedWidth_make_visual_length s n

/-- Claim C3 witness: the amended theorem applied to a concrete wide
string and target 20. -/
theorem claim_C3_amended_witness :
    (∀ c ∈ "Bohemian Rhapsody - Queen".data,
        charWidth c = some 1 ∨ charWidth c = some 2) ∧
    visual_length (make_visual_length "Bohemian Rhapsody - Queen" 20) = 20 :=
  ⟨by decide, claim_C3_amended "Bohemian Rhapsody - Queen" 20 (by decide)⟩

/-- Claim C4: on an empty player list the final display state does not show
"No player available": the call `update_prefix_suffix("", "")` at the end
of the branch overwrites the suffix with the three control segments and
sets the default icon, so the suffix lacks the literal and the prefix is
not empty. -/
theorem claim_C4_eval :
    updateMessageState initialState [] 0 (Except.ok "") (Except.ok []) =
      Except.ok { noPlayerState with status_paused := true } ∧
    strContains noPlayerState.display_suffix "No player available" = false ∧
    noPlayerState.display_pfx.isEmpty = false :=
  ⟨rfl, rfl, rfl⟩

/-- Claim C5: with metadata wider than the display, the clamped wrapped
metadata is stored in `display_suffix` — overwriting the control segments —
and the scroll buffer `display_text` is never assigned, so the suffix holds
no `playerctl` control segment and the body stays empty. -/
theorem claim_C5_eval :
    updateMessageState initialState ["org.mpris.MediaPlayer2.spotify"] 0
      (Except.ok "Playing")
      (Except.ok [("xesam:title", "Bohemian Rhapsody"), ("xesam:artist", "Queen")]) =
      Except.ok wideMetadataState ∧
    wideMetadataState.display_text = "" ∧
    strContains wideMetadataState.display_suffix "playerctl" = false :=
  ⟨rfl, rfl, rfl⟩

/-- Claim C6: `make_visual_length` is idempotent for a fixed target
width. -/
theorem claim_C6 (s : String) (n : Nat) :
    make_visual_length (make_visual_length s n) n = make_visual_length s n :=
  make_visual_length_self _ n (countedWidth_make_visual_length s n)

/-- Claim C7: a paused wide buffer is left unchanged by a scroll tick, an
ASCII-leading playing wide buffer is rotated by one character, but a
playing wide buffer whose first character is multi-byte makes the byte
slicing panic (modelled as `none`) instead of rotating one character. -/
theorem claim_C7_eval :
    scroll pausedWideState = some pausedWideState ∧
    scroll playingAsciiState =
      some { playingAsciiState with display_text := "bcdefghijklmnopqrstua" } ∧
    scroll playingAccentState = none :=
  ⟨rfl, rfl, rfl⟩

/-- Claim C8: after a successful registry refresh the current index is
reset to 0 exactly when the old index is out of range for the new list, so
it is always 0 or a valid index. -/
theorem claim_C8 (reg : RegistryState) (names : List String) (reg' : RegistryState)
    (h : update_players reg (Except.ok names) = Except.ok reg') :
    reg'.current =
      (if (get_players names).length ≤ reg.current then 0 else reg.current) ∧
    (reg'.current = 0 ∨ reg'.current < reg'.players.length) := by
  simp only [update_players, Except.ok.injEq] at h
  subst h
  refine ⟨rfl, ?_⟩
  by_cases hc : (get_players names).length ≤ reg.current
  · simp [hc]
  · simp only [hc, if_false]
    omega

/-- Claim C8 witness: refreshing from old index 5 to a one-element list
resets the index to 0. -/
theorem claim_C8_witness :
    RegistryState.current ⟨["org.mpris.MediaPlayer2.vlc"], 0⟩ =
      (if (get_players ["org.mpris.MediaPlayer2.vlc"]).length ≤
          RegistryState.current ⟨[], 5⟩ then 0
        else RegistryState.current ⟨[], 5⟩) ∧
    (RegistryState.current ⟨["org.mpris.MediaPlayer2.vlc"], 0⟩ = 0 ∨
      RegistryState.current ⟨["org.mpris.MediaPlayer2.vlc"], 0⟩ <
        (RegistryState.players ⟨["org.mpris.MediaPlayer2.vlc"], 0⟩).length) :=
  claim_C8 ⟨[], 5⟩ ["org.mpris.MediaPlayer2.vlc"]
    ⟨["org.mpris.MediaPlayer2.vlc"], 0⟩ rfl

/-- Claim C9: the accumulation loop of `make_visual_length` never exceeds
the target width, so the branch replacing the last accepted character by a
space (guarded by an accumulated width of target + 1) is dead and the
result is always the accepted prefix, right-padded with spaces when
short. -/
theorem claim_C9 (text : String) (n : Nat) :
    (clampLoop n text.data 0).1 ≤ n ∧
    make_visual_length text n =
      (if (clampLoop n text.data 0).1 < n then
        String.mk ((clampLoop n text.data 0).2 ++
          List.replicate (n - (clampLoop n text.data 0).1) ' ')
      else String.mk (clampLoop n text.data 0).2) := by
  have hle := clampLoop_fst_le n text.data 0 (Nat.zero_le n)
  refine ⟨hle, ?_⟩
  have hne : ¬ ((clampLoop n text.data 0).1 = n + 1) := by omega
  simp only [make_visual_length]
  rw [if_neg hne]

/-- Claim C10: `update_prefix_suffix` clears the paused flag exactly for
the status string "Playing"; every other status sets the flag, puts the
play glyph (not the pause glyph) in the suffix, and makes the following
scroll tick a no-op. -/
theorem claim_C10 (st : DisplayState) (player_name status : String) :
    ((update_prefix_suffix st player_name status).status_paused = false ↔
      status = "Playing") ∧
    (update_prefix_suffix st player_name status).display_suffix =
      "| " ++ prev_button player_name ++ " " ++
        (if status = "Playing" then pause_button player_name
         else play_button player_name) ++ " " ++ next_button player_name ∧
    (status ≠ "Playing" →
      scroll (update_prefix_suffix st player_name status) =
        some (update_prefix_suffix st player_name status)) := by
  by_cases h : status = "Playing" <;>
    simp [update_prefix_suffix, scroll, h]

/-- Claim C10 witness: for the status "Paused" the scroll tick leaves the
state produced by `update_prefix_suffix` unchanged. -/
theorem claim_C10_witness :
    scroll (update_prefix_suffix initialState "spotify" "Paused") =
      some (update_prefix_suffix initialState "spotify" "Paused") :=
  (claim_C10 initialState "spotify" "Paused").2.2 (by decide)

end PolybarNowPlaying
